import Mathlib

/-!
A verification development for the deterministic simulation engine of the
"flappy physics" side-scrolling reflex game.  The TypeScript sources
(`src/game/physics.ts`, `src/game/bird.ts`, `src/game/pipes.ts`,
`src/game/chaos.ts`, `src/game/engine.ts`) are embedded shallowly:

* JavaScript numbers are modelled as rationals (`ℚ`);
* every call to `Math.random()` is modelled as one draw from an explicit
  stream `Env.rand : ℕ → ℚ` (distinct call sites use distinct indices);
* the transcendental library functions `Math.sqrt`, `Math.cos`, `Math.PI`
  and the global id counter are abstracted as further fields of `Env`,
  so every theorem below holds for all interpretations of them;
* the module-level mutable `frameCount` of `engine.ts` is passed to
  `updateGame` explicitly (`fc` is the value of the counter after the
  `frameCount++` on entry to `updateGame`);
* optional / possibly-`undefined` TypeScript fields are modelled with
  `Option` where the code tests for `undefined`, and with JavaScript
  truthiness defaults (`x || d`) via `jsOrNat` where the code uses `||`.
-/

namespace Flappy

/-- Abstract environment: the random stream, the transcendental functions
used by the sources, and the id generator of `chaos.ts`. -/
structure Env where
  rand : ℕ → ℚ
  sqrt : ℚ → ℚ
  cos : ℚ → ℚ
  pi : ℚ
  nextId : ℕ → ℕ

/- ============ config/constants.ts ============ -/

def canvasWidth : ℚ := 480

def canvasHeight : ℚ := 640

def birdStartX : ℚ := 80

def birdStartY : ℚ := 300

def birdWidthConst : ℚ := 34

def birdHeightConst : ℚ := 28

def pipeWidthConst : ℚ := 60

/- ============ types (shapes inferred from all use sites) ============ -/

inductive PhysicsType
  | parabolic
  | linear
  | exponential
  | sine
  deriving DecidableEq, Repr

structure Bird where
  x : ℚ
  y : ℚ
  velocity : ℚ
  width : ℚ
  height : ℚ
  jumpTime : ℕ
  deriving DecidableEq, Repr

structure Pipe where
  x : ℚ
  topHeight : ℚ
  bottomY : ℚ
  width : ℚ
  passed : Bool
  -- electric-pipe payload; absent (undefined) fields of plain pipes are
  -- modelled by the defaults below, with JS `||` semantics via jsOrNat
  isElectric : Bool := false
  electricActive : Bool := false
  electricCycleTime : ℕ := 0
  electricOnDuration : ℕ := 0
  electricOffDuration : ℕ := 0
  -- Schrödinger payload; `none` models the `undefined` tested by the code
  isGhost : Option Bool := none
  isRevealed : Bool := false
  deriving DecidableEq, Repr

inductive RayState
  | warning
  | active
  | fading
  deriving DecidableEq, Repr

structure GammaRay where
  id : ℕ
  y : ℚ
  width : ℚ
  height : ℚ
  warningTime : ℚ
  activeTime : ℚ
  state : RayState
  progress : ℚ
  deriving DecidableEq, Repr

structure GravityFlip where
  id : ℕ
  x : ℚ
  width : ℚ
  duration : ℚ
  progress : ℚ
  isActive : Bool
  deriving DecidableEq, Repr

structure Vortex where
  id : ℕ
  x : ℚ
  y : ℚ
  radius : ℚ
  strength : ℚ
  rotation : ℚ
  deriving DecidableEq, Repr

structure Particle where
  id : ℕ
  x : ℚ
  y : ℚ
  vx : ℚ
  vy : ℚ
  radius : ℚ
  color : String
  deriving DecidableEq, Repr

structure ChaosHazards where
  electricPillars : Bool
  gammaRays : Bool
  vortexes : Bool
  particles : Bool
  schrodingerPipes : Bool
  deriving DecidableEq, Repr

/-- The `electricPillars` list of `ChaosState` is only ever the empty list
in the sources (pillars became a pipe payload); its element type is never
inspected, so it is modelled as `Unit`. -/
structure ChaosState where
  enabled : Bool
  electricPillars : List Unit
  gammaRays : List GammaRay
  gravityFlips : List GravityFlip
  vortexes : List Vortex
  particles : List Particle
  schrodingerMode : Bool
  gravityMultiplier : ℚ
  lastSpawnTime : ℕ
  deriving DecidableEq, Repr

inductive BlackHolePhase
  | pulling
  | stretching
  | none
  deriving DecidableEq, Repr

structure BlackHoleEffect where
  active : Bool
  progress : ℚ
  phase : BlackHolePhase
  hasTriggeredThisGame : Bool
  waitingToResume : Bool
  deriving DecidableEq, Repr

inductive Status
  | ready
  | playing
  | over
  deriving DecidableEq, Repr

structure GameConfig where
  speed : ℚ
  jumpHeight : ℚ
  gravity : ℚ
  physicsType : PhysicsType
  pipeGap : ℚ
  pipeSpacing : ℚ
  pipeWidth : ℚ
  chaosEnabled : Bool
  chaosHazards : ChaosHazards
  deriving DecidableEq, Repr

structure GameState where
  bird : Bird
  pipes : List Pipe
  score : ℕ
  bestScore : ℕ
  status : Status
  config : GameConfig
  blackHole : BlackHoleEffect
  chaos : ChaosState
  deriving DecidableEq, Repr

/-- JavaScript `n || d` on the naturals standing in for possibly-undefined
numeric fields (0 models `undefined`, and `0 || d` is `d` in JS as well). -/
def jsOrNat (n d : ℕ) : ℕ :=
  if n = 0 then d else n

/- ============ game/physics.ts ============ -/

def jumpDurationLinear : ℕ := 20

def jumpDurationSine : ℕ := 25

def applyGravity (env : Env) (velocity gravity : ℚ) (physicsType : PhysicsType)
    (jumpTime : ℕ) (jumpHeight : ℚ) : ℚ :=
  match physicsType with
  | .linear =>
      if velocity < 0 ∧ jumpTime < jumpDurationLinear then
        velocity
      else
        velocity + gravity * 1.2
  | .exponential =>
      if velocity < 0 then
        velocity * (1 - 0.12) + gravity * 0.5
      else
        velocity + gravity
  | .sine =>
      if jumpTime < jumpDurationSine ∧ velocity < 0 then
        let t : ℚ := (jumpTime : ℚ) / (jumpDurationSine : ℚ)
        let sinePhase := t * env.pi
        let sineFactor := env.cos sinePhase
        let targetVelocity := -jumpHeight * max 0 sineFactor * 0.7
        velocity * 0.8 + targetVelocity * 0.2 + gravity * 0.3
      else
        velocity + gravity
  | .parabolic =>
      velocity + gravity

def applyJump (jumpHeight : ℚ) (physicsType : PhysicsType) : ℚ :=
  match physicsType with
  | .linear => -jumpHeight * 0.5
  | .exponential => -jumpHeight * 1.8
  | .sine => -jumpHeight * 0.9
  | .parabolic => -jumpHeight

def updatePosition (y velocity : ℚ) : ℚ :=
  y + velocity

/- ============ game/bird.ts ============ -/

def createBird : Bird :=
  { x := birdStartX
    y := birdStartY
    velocity := 0
    width := birdWidthConst
    height := birdHeightConst
    jumpTime := 0 }

def updateBird (env : Env) (bird : Bird) (gravity : ℚ) (physicsType : PhysicsType)
    (jumpHeight : ℚ) : Bird :=
  let newVelocity := applyGravity env bird.velocity gravity physicsType bird.jumpTime jumpHeight
  let newY := updatePosition bird.y newVelocity
  { bird with velocity := newVelocity, y := newY, jumpTime := bird.jumpTime + 1 }

def jumpBird (bird : Bird) (jumpHeight : ℚ) (physicsType : PhysicsType) : Bird :=
  { bird with velocity := applyJump jumpHeight physicsType, jumpTime := 0 }

def isBirdOutOfBounds (bird : Bird) : Bool :=
  decide (bird.y + bird.height > canvasHeight - 80) || decide (bird.y < 0)

/- ============ game/pipes.ts ============ -/

def minPipeHeight : ℚ := 80

def groundHeight : ℚ := 80

/-- The source's `createPipe`; `r` is the `Math.random()` draw for the top height. -/
def createPipe (r : ℚ) (x gap : ℚ) : Pipe :=
  let availableHeight := canvasHeight - groundHeight - gap - minPipeHeight * 2
  let topHeight := minPipeHeight + r * availableHeight
  { x := x
    topHeight := topHeight
    bottomY := topHeight + gap
    width := pipeWidthConst
    passed := false }

def updatePipes (pipes : List Pipe) (speed : ℚ) : List Pipe :=
  (pipes.map fun pipe => { pipe with x := pipe.x - speed }).filter
    fun pipe => decide (pipe.x + pipe.width > -50)

def shouldSpawnPipe (pipes : List Pipe) (pipeSpacing : ℚ) : Bool :=
  match pipes.getLast? with
  | Option.none => true
  | some lastPipe => decide (lastPipe.x < canvasWidth - pipeSpacing)

def checkPipeCollision (bird : Bird) (pipe : Pipe) : Bool :=
  if bird.x + bird.width > pipe.x ∧ bird.x < pipe.x + pipe.width then
    if bird.y < pipe.topHeight then
      true
    else if bird.y + bird.height > pipe.bottomY then
      true
    else
      false
  else
    false

def checkAnyCollision (bird : Bird) (pipes : List Pipe) : Bool :=
  pipes.any (checkPipeCollision bird)

/-- The source's `countPassedPipes` maps over the pipes, marking each
not-yet-passed pipe whose trailing edge is left of the bird and counting
the marks with a closure-captured counter; here the map and the counter
are accumulated by structural recursion. -/
def countPassedPipes (bird : Bird) : List Pipe → List Pipe × ℕ
  | [] => ([], 0)
  | pipe :: rest =>
      let tail := countPassedPipes bird rest
      if pipe.passed = false ∧ pipe.x + pipe.width < bird.x then
        ({ pipe with passed := true } :: tail.1, tail.2 + 1)
      else
        (pipe :: tail.1, tail.2)

/- ============ game/chaos.ts ============ -/

def spawnInterval : ℕ := 400

def spawnChance : ℚ := 0.3

def createInitialChaos : ChaosState :=
  { enabled := false
    electricPillars := []
    gammaRays := []
    gravityFlips := []
    vortexes := []
    particles := []
    schrodingerMode := false
    gravityMultiplier := 1
    lastSpawnTime := 0 }

def makeElectricPipe (pipe : Pipe) : Pipe :=
  { pipe with
    isElectric := true
    electricActive := false
    electricCycleTime := 0
    electricOnDuration := 50
    electricOffDuration := 120 }

def updateElectricPipe (pipe : Pipe) : Pipe :=
  if pipe.isElectric = false then
    pipe
  else
    let cycleTime := jsOrNat pipe.electricCycleTime 0 + 1
    let onDuration := jsOrNat pipe.electricOnDuration 50
    let offDuration := jsOrNat pipe.electricOffDuration 120
    let cycleDuration := onDuration + offDuration
    let cyclePosition := cycleTime % cycleDuration
    { pipe with
      electricCycleTime := cycleTime
      electricActive := decide (cyclePosition < onDuration) }

/-- The source's `spawnGammaRay`; `idv` is the generated id, `r` the `Math.random()` draw. -/
def spawnGammaRay (idv : ℕ) (r : ℚ) : GammaRay :=
  { id := idv
    y := 100 + r * (canvasHeight - 280)
    width := canvasWidth
    height := 15
    warningTime := 240
    activeTime := 30
    state := .warning
    progress := 0 }

def spawnVortex (idv : ℕ) (r : ℚ) : Vortex :=
  { id := idv
    x := canvasWidth + 50
    y := 150 + r * (canvasHeight - 380)
    radius := 60
    strength := 0.15
    rotation := 0 }

def particleColors : List String :=
  ["#00FFFF", "#FF00FF", "#FFFF00", "#00FF00", "#FF6600"]

/-- The source's `spawnParticle`; `r1 .. r6` are its six `Math.random()` draws in source
order (side choice, y, vx, vy, radius, color index). -/
def spawnParticle (idv : ℕ) (r1 r2 r3 r4 r5 r6 : ℚ) : Particle :=
  let fromLeft := decide (r1 > 0.5)
  { id := idv
    x := if fromLeft then -20 else canvasWidth + 20
    y := 100 + r2 * (canvasHeight - 280)
    vx := (if fromLeft then 1 else -1) * (4 + r3 * 3)
    vy := (r4 - 0.5) * 2
    radius := 4 + r5 * 2
    color := particleColors.getD (Int.toNat ⌊r6 * (particleColors.length : ℚ)⌋) "" }

inductive HazardKind
  | gamma
  | vortex
  | particles
  deriving DecidableEq, Repr

/-- The source's `updateChaos`.  The `Math.random()` draws of the tick use `env.rand 0`
(spawn chance), `env.rand 1` (hazard pick) and `env.rand 2 ..` (spawned
entity); the ids use `env.nextId`. -/
def updateChaos (env : Env) (chaos : ChaosState) (speed : ℚ) (frameCount : ℕ)
    (hazards : ChaosHazards) : ChaosState :=
  if chaos.enabled = false then
    chaos
  else
    -- electric pillars are now part of pipes, not separate obstacles
    let gammaRays :=
      (chaos.gammaRays.map fun ray =>
        let denom : ℚ := if ray.state = .warning then ray.warningTime else ray.activeTime
        let newProgress := ray.progress + 1 / denom
        if newProgress ≥ 1 then
          match ray.state with
          | .warning => some { ray with state := .active, progress := 0 }
          | .active => some { ray with state := .fading, progress := 0 }
          | .fading => Option.none
        else
          some { ray with progress := newProgress }).reduceOption
    let gravityFlips :=
      (chaos.gravityFlips.map fun flip =>
        { flip with
          x := flip.x - speed
          progress := if flip.isActive then flip.progress + 1 / flip.duration else flip.progress
          isActive := flip.isActive && decide (flip.progress < 1) }).filter
        fun f => decide (f.x > -f.width)
    let gravityMultiplier : ℚ :=
      match gravityFlips.find? (fun f => f.isActive) with
      | some _ => -1
      | Option.none => 1
    let vortexes :=
      (chaos.vortexes.map fun v =>
        { v with x := v.x - speed * 0.5, rotation := v.rotation + 0.1 }).filter
        fun v => decide (v.x > -v.radius * 2)
    let particles :=
      (chaos.particles.map fun p =>
        { p with x := p.x + p.vx, y := p.y + p.vy }).filter
        fun p =>
          decide (p.x > -50) && decide (p.x < canvasWidth + 50) &&
            decide (p.y > -50) && decide (p.y < canvasHeight + 50)
    let enabledHazards : List HazardKind :=
      (if hazards.gammaRays then [HazardKind.gamma] else []) ++
        (if hazards.vortexes then [HazardKind.vortex] else []) ++
          (if hazards.particles then [HazardKind.particles] else [])
    let doSpawn :=
      enabledHazards ≠ [] ∧ (frameCount : ℤ) - (chaos.lastSpawnTime : ℤ) > (spawnInterval : ℤ) ∧
        env.rand 0 < spawnChance
    -- the spawn attempt touches only the three spawnable lists and the
    -- last-spawn counter (and runs even when the pick spawns nothing)
    let afterSpawn : List GammaRay × List Vortex × List Particle × ℕ :=
      if doSpawn then
        let hazardType :=
          enabledHazards.get? (Int.toNat ⌊env.rand 1 * (enabledHazards.length : ℚ)⌋)
        ((if hazardType = some .gamma ∧ gammaRays.length < 1 then
            gammaRays ++ [spawnGammaRay (env.nextId 0) (env.rand 2)]
          else
            gammaRays),
          (if hazardType = some .vortex then
            vortexes ++ [spawnVortex (env.nextId 0) (env.rand 2)]
          else
            vortexes),
          (if hazardType = some .particles then
            particles ++
              [spawnParticle (env.nextId 0) (env.rand 2) (env.rand 3) (env.rand 4) (env.rand 5) (env.rand 6) (env.rand 7),
                spawnParticle (env.nextId 1) (env.rand 8) (env.rand 9) (env.rand 10) (env.rand 11) (env.rand 12) (env.rand 13)]
          else
            particles),
          frameCount)
      else
        (gammaRays, vortexes, particles, chaos.lastSpawnTime)
    { chaos with
      electricPillars := []
      gammaRays := afterSpawn.1
      gravityFlips := gravityFlips
      gravityMultiplier := gravityMultiplier
      vortexes := afterSpawn.2.1
      particles := afterSpawn.2.2.1
      lastSpawnTime := afterSpawn.2.2.2
      schrodingerMode := hazards.schrodingerPipes }

def checkElectricPipeCollision (bird : Bird) (pipes : List Pipe) : Bool :=
  pipes.any fun pipe =>
    pipe.isElectric && pipe.electricActive &&
      (decide (bird.x + bird.width > pipe.x) && decide (bird.x < pipe.x + pipe.width)) &&
        (decide (bird.y > pipe.topHeight) && decide (bird.y + bird.height < pipe.bottomY))

def checkChaosCollision (env : Env) (bird : Bird) (chaos : ChaosState) : Bool :=
  if chaos.enabled = false then
    false
  else
    (chaos.gammaRays.any fun ray =>
      decide (ray.state = .active) &&
        (decide (bird.y + bird.height > ray.y) && decide (bird.y < ray.y + ray.height))) ||
      (chaos.particles.any fun particle =>
        let dx := bird.x + bird.width / 2 - particle.x
        let dy := bird.y + bird.height / 2 - particle.y
        let distance := env.sqrt (dx * dx + dy * dy)
        decide (distance < particle.radius + min bird.width bird.height / 2))

def applyVortexForce (env : Env) (bird : Bird) (chaos : ChaosState) : ℚ × ℚ :=
  if chaos.enabled = false then
    (0, 0)
  else
    chaos.vortexes.foldl
      (fun acc vortex =>
        let dx := vortex.x - (bird.x + bird.width / 2)
        let dy := vortex.y - (bird.y + bird.height / 2)
        let distance := env.sqrt (dx * dx + dy * dy)
        if distance < vortex.radius ∧ distance > 10 then
          let force := vortex.strength * (1 - distance / vortex.radius)
          let tangentX := -dy / distance
          let tangentY := dx / distance
          (acc.1 + dx / distance * force + tangentX * force * 0.5,
            acc.2 + dy / distance * force + tangentY * force * 0.5)
        else
          acc)
      (0, 0)

def checkGravityFlipTrigger (bird : Bird) (chaos : ChaosState) : ChaosState :=
  if chaos.enabled = false then
    chaos
  else
    { chaos with
      gravityFlips :=
        chaos.gravityFlips.map fun flip =>
          if flip.isActive = false ∧ bird.x > flip.x ∧ bird.x < flip.x + flip.width then
            { flip with isActive := true, progress := 0 }
          else
            flip }

/-- The source's `applySchrodingerEffect`; `r` is the `Math.random()` ghost draw. -/
def applySchrodingerEffect (r : ℚ) (pipe : Pipe) (chaos : ChaosState) : Pipe :=
  if chaos.enabled = false ∨ chaos.schrodingerMode = false then
    pipe
  else
    match pipe.isGhost with
    | Option.none => { pipe with isGhost := some (decide (r > 0.5)), isRevealed := false }
    | some _ => pipe

def revealSchrodingerPipe (pipe : Pipe) (bird : Bird) : Pipe :=
  if pipe.isGhost = Option.none ∨ pipe.isRevealed = true then
    pipe
  else if bird.x + bird.width > pipe.x - 50 then
    { pipe with isRevealed := true }
  else
    pipe

/- ============ game/engine.ts ============ -/

def blackHoleDuration : ℚ := 150

def pullPhase : ℚ := 0.4

def stretchPhase : ℚ := 1.0

def createInitialBlackHole : BlackHoleEffect :=
  { active := false
    progress := 0
    phase := .none
    hasTriggeredThisGame := false
    waitingToResume := false }

def getBlackHolePhase (progress : ℚ) : BlackHolePhase :=
  if progress < pullPhase then .pulling
  else if progress < stretchPhase then .stretching
  else .none

def defaultConfig : GameConfig :=
  { speed := 4
    jumpHeight := 7
    gravity := 0.4
    physicsType := .parabolic
    pipeGap := 160
    pipeSpacing := 280
    pipeWidth := pipeWidthConst
    chaosEnabled := false
    chaosHazards :=
      { electricPillars := true
        gammaRays := true
        vortexes := true
        particles := true
        schrodingerPipes := true } }

def createInitialState (bestScore : ℕ) : GameState :=
  { bird := createBird
    pipes := []
    score := 0
    bestScore := bestScore
    status := .ready
    config := defaultConfig
    blackHole := createInitialBlackHole
    chaos := createInitialChaos }

/-- The source's `startGame` (the reset of the global frame counter to 0 is modelled at
the reachability relation, not in the state). -/
def startGame (state : GameState) : GameState :=
  { state with
    status := .playing
    bird := jumpBird state.bird state.config.jumpHeight state.config.physicsType
    chaos := { createInitialChaos with enabled := state.config.chaosEnabled } }

def restartGame (state : GameState) : GameState :=
  { createInitialState state.bestScore with config := state.config }

def handleJump (state : GameState) : GameState :=
  if state.blackHole.active = true then
    state
  else if state.blackHole.waitingToResume = true then
    { state with
      bird := jumpBird state.bird state.config.jumpHeight state.config.physicsType
      blackHole := { state.blackHole with waitingToResume := false } }
  else if state.status = .ready then
    startGame state
  else if state.status = .playing then
    { state with
      bird := jumpBird state.bird state.config.jumpHeight state.config.physicsType }
  else if state.status = .over then
    startGame (restartGame state)
  else
    state

/-- The chaos state used by the tick (`newChaos` of `updateGame` after the
gravity-flip trigger check). -/
def tickChaos (env : Env) (fc : ℕ) (state : GameState) : ChaosState :=
  let newChaos :=
    if state.config.chaosEnabled then
      updateChaos env state.chaos state.config.speed fc state.config.chaosHazards
    else
      state.chaos
  if state.config.chaosEnabled then
    checkGravityFlipTrigger state.bird newChaos
  else
    newChaos

/-- The tick's effective gravity: configured gravity times the gravity
multiplier of the chaos state of the tick. -/
def effectiveGravity (env : Env) (fc : ℕ) (state : GameState) : ℚ :=
  state.config.gravity * (tickChaos env fc state).gravityMultiplier

/-- The bird after the physics update and the vortex force of the tick
(`newBird` of `updateGame`). -/
def tickBird (env : Env) (fc : ℕ) (state : GameState) : Bird :=
  let newBird :=
    updateBird env state.bird (effectiveGravity env fc state) state.config.physicsType
      state.config.jumpHeight
  if state.config.chaosEnabled then
    let vortexForce := applyVortexForce env newBird (tickChaos env fc state)
    { newBird with
      x := max 20 (min (newBird.x + vortexForce.1) 150)
      velocity := newBird.velocity + vortexForce.2 }
  else
    newBird

/-- The pipe list of the tick before scoring: scroll and cull, spawn (with
the Schrödinger and electric payloads), advance electric cycles, reveal
approached Schrödinger pipes (`newPipes` of `updateGame` at line 245).
The tick's `Math.random()` draws in the engine itself use the stream
indices 20 (pipe height), 21 (ghost bit) and 22 (electric chance). -/
def tickPipes (env : Env) (fc : ℕ) (state : GameState) : List Pipe :=
  let newBird := tickBird env fc state
  let scrolled := updatePipes state.pipes state.config.speed
  let spawned :=
    if shouldSpawnPipe scrolled state.config.pipeSpacing then
      let newPipe := createPipe (env.rand 20) (canvasWidth + 50) state.config.pipeGap
      let newPipe2 :=
        if state.config.chaosEnabled = true ∧ (tickChaos env fc state).schrodingerMode = true then
          applySchrodingerEffect (env.rand 21) newPipe (tickChaos env fc state)
        else
          newPipe
      let newPipe3 :=
        if state.config.chaosEnabled = true ∧ state.config.chaosHazards.electricPillars = true ∧
            env.rand 22 < 0.4 then
          makeElectricPipe newPipe2
        else
          newPipe2
      scrolled ++ [newPipe3]
    else
      scrolled
  let electrified :=
    if state.config.chaosEnabled = true ∧ state.config.chaosHazards.electricPillars = true then
      spawned.map updateElectricPipe
    else
      spawned
  if state.config.chaosEnabled then
    electrified.map fun pipe => revealSchrodingerPipe pipe newBird
  else
    electrified

/-- Scoring step of the tick: the marked pipe list and the score increment. -/
def tickScore (env : Env) (fc : ℕ) (state : GameState) : List Pipe × ℕ :=
  countPassedPipes (tickBird env fc state) (tickPipes env fc state)

/-- The ghost filter applied before pipe-collision testing
(`!p.isGhost || !p.isRevealed` on line 278 of `engine.ts`). -/
def ghostFilter (pipe : Pipe) : Bool :=
  !(pipe.isGhost.getD false) || !pipe.isRevealed

/-- The source's `updateGame`.  Here `fc` is the value of the module-level `frameCount`
after the increment at the top of the function. -/
def updateGame (env : Env) (fc : ℕ) (state : GameState) : GameState :=
  if state.status ≠ .playing then
    state
  else if state.blackHole.waitingToResume = true then
    state
  else if state.blackHole.active = true then
    let newProgress := state.blackHole.progress + 1 / blackHoleDuration
    if newProgress ≥ 1 then
      { state with
        pipes := []
        bird := { state.bird with velocity := 0, y := canvasHeight / 2, x := 80 }
        blackHole :=
          { state.blackHole with
            active := false
            progress := 0
            phase := .none
            waitingToResume := true }
        chaos :=
          { state.chaos with
            electricPillars := []
            gammaRays := []
            vortexes := []
            particles := [] } }
    else
      { state with
        blackHole :=
          { state.blackHole with
            progress := newProgress
            phase := getBlackHolePhase newProgress } }
  else
    let newChaos := tickChaos env fc state
    let newBird := tickBird env fc state
    let scoreResult := tickScore env fc state
    let newPipes := scoreResult.1
    let newScore := state.score + scoreResult.2
    let newBestScore := max newScore state.bestScore
    let justBeatBestScore :=
      newScore > state.bestScore ∧ state.bestScore > 0 ∧
        state.blackHole.hasTriggeredThisGame = false
    if justBeatBestScore then
      { state with
        bird := newBird
        pipes := newPipes
        score := newScore
        bestScore := newBestScore
        chaos := newChaos
        blackHole :=
          { active := true
            progress := 0
            phase := .pulling
            hasTriggeredThisGame := true
            -- absent from the object literal on lines 268-273: undefined, hence falsy
            waitingToResume := false } }
    else
      let realPipes := newPipes.filter ghostFilter
      let hitPipe := checkAnyCollision newBird realPipes
      let hitBounds := isBirdOutOfBounds newBird
      let hitChaos := checkChaosCollision env newBird newChaos
      let hitElectric := state.config.chaosEnabled && checkElectricPipeCollision newBird newPipes
      if hitPipe || hitBounds || hitChaos || hitElectric then
        { state with
          bird := newBird
          pipes := newPipes
          score := newScore
          bestScore := newBestScore
          chaos := newChaos
          status := .over }
      else
        { state with
          bird := newBird
          pipes := newPipes
          score := newScore
          bestScore := newBestScore
          chaos := newChaos }

/-- The partial configuration `Partial<GameConfig>`: each recognized option may be present or absent. -/
structure ConfigPatch where
  speed : Option ℚ := Option.none
  jumpHeight : Option ℚ := Option.none
  gravity : Option ℚ := Option.none
  physicsType : Option PhysicsType := Option.none
  pipeGap : Option ℚ := Option.none
  pipeSpacing : Option ℚ := Option.none
  pipeWidth : Option ℚ := Option.none
  chaosEnabled : Option Bool := Option.none
  chaosHazards : Option ChaosHazards := Option.none
  deriving DecidableEq, Repr

/-- The object spread `{ ...state.config, ...updates }`. -/
def mergeConfig (config : GameConfig) (updates : ConfigPatch) : GameConfig :=
  { speed := updates.speed.getD config.speed
    jumpHeight := updates.jumpHeight.getD config.jumpHeight
    gravity := updates.gravity.getD config.gravity
    physicsType := updates.physicsType.getD config.physicsType
    pipeGap := updates.pipeGap.getD config.pipeGap
    pipeSpacing := updates.pipeSpacing.getD config.pipeSpacing
    pipeWidth := updates.pipeWidth.getD config.pipeWidth
    chaosEnabled := updates.chaosEnabled.getD config.chaosEnabled
    chaosHazards := updates.chaosHazards.getD config.chaosHazards }

def updateConfig (state : GameState) (updates : ConfigPatch) : GameState :=
  let newConfig := mergeConfig state.config updates
  { state with
    config := newConfig
    chaos := { state.chaos with enabled := newConfig.chaosEnabled } }

/-- The states reachable from a fresh session (any persisted best score)
by the engine operations.  The frame counter passed to `updateGame` is
over-approximated by an arbitrary natural, which covers the behaviour of
the module-level counter. -/
inductive Reachable : GameState → Prop
  | init (bestScore : ℕ) : Reachable (createInitialState bestScore)
  | jump {s : GameState} : Reachable s → Reachable (handleJump s)
  | tick {s : GameState} (env : Env) (fc : ℕ) : Reachable s → Reachable (updateGame env fc s)
  | cfg {s : GameState} (updates : ConfigPatch) : Reachable s → Reachable (updateConfig s updates)
  | restart {s : GameState} : Reachable s → Reachable (restartGame s)

/- ============ spec-side description of the scoring step ============ -/

/-- The per-pipe effect of the scoring step, as the spec describes it:
mark a not-yet-passed pipe whose trailing edge is strictly left of the
bird, and leave every other pipe unchanged. -/
def markPassedSpec (bird : Bird) (pipe : Pipe) : Pipe :=
  if pipe.passed = false ∧ pipe.x + pipe.width < bird.x then
    { pipe with passed := true }
  else
    pipe

/-- Invariant carried by every reachable state: the gravity-flip list is
empty and the gravity multiplier is the neutral `1`. -/
def ChaosInv (c : ChaosState) : Prop :=
  c.gravityFlips = [] ∧ c.gravityMultiplier = 1

/- ============ concrete inputs used by witnesses/counterexamples ============ -/

/-- A fixed environment for concrete runs: the random stream is constantly
0 and the abstracted library functions are arbitrary. -/
def envW : Env :=
  { rand := fun _ => 0
    sqrt := fun _ => 0
    cos := fun _ => 0
    pi := 0
    nextId := fun n => n }

def wPipeA : Pipe :=
  { x := 10, topHeight := 100, bottomY := 260, width := 60, passed := false }

def wPipeB : Pipe :=
  { wPipeA with passed := true }

def boundaryPipe (x : ℚ) : Pipe :=
  { x := x, topHeight := 100, bottomY := 260, width := 60, passed := false }

/-- Playing state one pipe-pass away from beating a positive best score. -/
def wStateTrigger : GameState :=
  { createInitialState 1 with
    status := .playing
    score := 1
    pipes := [wPipeA] }

/-- Playing state whose black-hole animation completes on the next tick. -/
def wStateBH : GameState :=
  { createInitialState 3 with
    status := .playing
    blackHole :=
      { active := true
        progress := 149 / 150
        phase := .stretching
        hasTriggeredThisGame := true
        waitingToResume := false } }

def wStateActiveBH : GameState :=
  { createInitialState 0 with
    blackHole := { createInitialBlackHole with active := true } }

/-- An unrevealed ghost pipe geometrically overlapping the bird. -/
def cexGhostPipe : Pipe :=
  { x := 80, topHeight := 400, bottomY := 560, width := 60, passed := false
    isGhost := some true, isRevealed := false }

/-- Playing state with hazards disabled that still contains an unrevealed
ghost pipe (hazards were switched off after it spawned). -/
def cexGhostState : GameState :=
  { createInitialState 0 with status := .playing, pipes := [cexGhostPipe] }

/-- The same state with the ghost pipe deleted. -/
def cexGhostStateEmpty : GameState :=
  { createInitialState 0 with status := .playing, pipes := [] }

/-- A distant unrevealed ghost pipe, for the hazards-enabled ghost rule. -/
def wGhostPipe : Pipe :=
  { x := 400, topHeight := 100, bottomY := 260, width := 60, passed := false
    isGhost := some true, isRevealed := false }

/-- Playing state with hazards enabled containing `wGhostPipe`. -/
def wGhostState : GameState :=
  { createInitialState 0 with
    status := .playing
    pipes := [wGhostPipe]
    config := { defaultConfig with chaosEnabled := true }
    chaos := { createInitialChaos with enabled := true } }

/-- The pipe `wGhostPipe` as it appears in the tick's scored pipe list (scrolled by
the default speed, still unrevealed). -/
def wGhostPipeOut : Pipe :=
  { wGhostPipe with x := 396 }

/-- Enabling hazards through `updateConfig` and then calling `restartGame`
leaves the configuration flag on but the hazard aggregate flag off. -/
def divergedState : GameState :=
  restartGame (updateConfig (createInitialState 0) { chaosEnabled := some true })

/- ============ helper lemmas ============ -/

theorem jsOrNat_zero (n : ℕ) : jsOrNat n 0 = n := by
  unfold jsOrNat
  split <;> omega

theorem countPassedPipes_fst (bird : Bird) (pipes : List Pipe) :
    (countPassedPipes bird pipes).1 = pipes.map (markPassedSpec bird) := by
  induction pipes with
  | nil => rfl
  | cons p rest ih =>
      simp only [countPassedPipes, markPassedSpec, List.map]
      split <;> simp [ih]

theorem countPassedPipes_snd (bird : Bird) (pipes : List Pipe) :
    (countPassedPipes bird pipes).2 =
      (pipes.filter fun p => decide (p.passed = false ∧ p.x + p.width < bird.x)).length := by
  induction pipes with
  | nil => rfl
  | cons p rest ih =>
      by_cases hc : p.passed = false ∧ p.x + p.width < bird.x <;>
        simp [countPassedPipes, hc, ih, List.filter_cons]

theorem markPassedSpec_keeps (bird : Bird) (pipe : Pipe) :
    { markPassedSpec bird pipe with passed := pipe.passed } = pipe := by
  cases pipe
  unfold markPassedSpec
  split <;> rfl

theorem markPassedSpec_x (bird : Bird) (pipe : Pipe) :
    (markPassedSpec bird pipe).x = pipe.x := by
  unfold markPassedSpec
  split <;> rfl

theorem markPassedSpec_width (bird : Bird) (pipe : Pipe) :
    (markPassedSpec bird pipe).width = pipe.width := by
  unfold markPassedSpec
  split <;> rfl

theorem markPassedSpec_isGhost (bird : Bird) (pipe : Pipe) :
    (markPassedSpec bird pipe).isGhost = pipe.isGhost := by
  unfold markPassedSpec
  split <;> rfl

theorem markPassedSpec_isRevealed (bird : Bird) (pipe : Pipe) :
    (markPassedSpec bird pipe).isRevealed = pipe.isRevealed := by
  unfold markPassedSpec
  split <;> rfl

theorem revealSchrodingerPipe_isGhost (pipe : Pipe) (bird : Bird) :
    (revealSchrodingerPipe pipe bird).isGhost = pipe.isGhost := by
  unfold revealSchrodingerPipe
  split
  · rfl
  · split <;> rfl

theorem revealSchrodingerPipe_unrevealed_far (pipe : Pipe) (bird : Bird)
    (hg : pipe.isGhost ≠ Option.none)
    (hr : (revealSchrodingerPipe pipe bird).isRevealed = false) :
    revealSchrodingerPipe pipe bird = pipe ∧ ¬ bird.x + bird.width > pipe.x - 50 := by
  by_cases h1 : pipe.isGhost = Option.none ∨ pipe.isRevealed = true
  · rcases h1 with h1 | h1
    · exact absurd h1 hg
    · unfold revealSchrodingerPipe at hr
      rw [if_pos (Or.inr h1)] at hr
      rw [h1] at hr
      cases hr
  · by_cases h2 : bird.x + bird.width > pipe.x - 50
    · exfalso
      unfold revealSchrodingerPipe at hr
      rw [if_neg h1, if_pos h2] at hr
      simp at hr
    · refine ⟨?_, h2⟩
      unfold revealSchrodingerPipe
      rw [if_neg h1, if_neg h2]

theorem checkPipeCollision_far (bird : Bird) (pipe : Pipe)
    (h : bird.x + bird.width ≤ pipe.x - 50) : checkPipeCollision bird pipe = false := by
  unfold checkPipeCollision
  rw [if_neg]
  rintro ⟨h1, -⟩
  linarith

/- invariant: no gravity-flip zone is ever created -/

theorem chaosInv_initial : ChaosInv createInitialChaos :=
  ⟨rfl, rfl⟩

theorem updateChaos_gravityFlips (env : Env) (sp : ℚ) (fc : ℕ) (hz : ChaosHazards)
    {c : ChaosState} (h1 : c.gravityFlips = []) :
    (updateChaos env c sp fc hz).gravityFlips = [] := by
  unfold updateChaos
  split
  · exact h1
  · simp [h1]

theorem updateChaos_gravityMultiplier (env : Env) (sp : ℚ) (fc : ℕ) (hz : ChaosHazards)
    {c : ChaosState} (h1 : c.gravityFlips = []) :
    (updateChaos env c sp fc hz).gravityMultiplier = c.gravityMultiplier ∨
      (updateChaos env c sp fc hz).gravityMultiplier = 1 := by
  unfold updateChaos
  split
  · exact Or.inl rfl
  · exact Or.inr (by simp [h1, List.find?])

theorem chaosInv_updateChaos (env : Env) (sp : ℚ) (fc : ℕ) (hz : ChaosHazards)
    {c : ChaosState} (h : ChaosInv c) : ChaosInv (updateChaos env c sp fc hz) := by
  refine ⟨updateChaos_gravityFlips env sp fc hz h.1, ?_⟩
  rcases updateChaos_gravityMultiplier env sp fc hz h.1 with h2 | h2
  · rw [h2, h.2]
  · exact h2

theorem chaosInv_trigger (bird : Bird) {c : ChaosState} (h : ChaosInv c) :
    ChaosInv (checkGravityFlipTrigger bird c) := by
  obtain ⟨h1, h2⟩ := h
  unfold checkGravityFlipTrigger
  split
  · exact ⟨h1, h2⟩
  · exact ⟨by simp [h1], h2⟩

theorem chaosInv_tickChaos (env : Env) (fc : ℕ) {s : GameState} (h : ChaosInv s.chaos) :
    ChaosInv (tickChaos env fc s) := by
  unfold tickChaos
  by_cases h1 : s.config.chaosEnabled = true
  · simp only [h1, if_true]
    exact chaosInv_trigger _ (chaosInv_updateChaos _ _ _ _ h)
  · simp only [h1, if_false]
    exact h

theorem chaosInv_startGame (s : GameState) : ChaosInv (startGame s).chaos :=
  ⟨rfl, rfl⟩

theorem chaosInv_handleJump {s : GameState} (h : ChaosInv s.chaos) :
    ChaosInv (handleJump s).chaos := by
  unfold handleJump
  split
  · exact h
  · split
    · exact h
    · split
      · exact chaosInv_startGame s
      · split
        · exact h
        · split
          · exact chaosInv_startGame _
          · exact h

theorem chaosInv_updateGame (env : Env) (fc : ℕ) {s : GameState} (h : ChaosInv s.chaos) :
    ChaosInv (updateGame env fc s).chaos := by
  unfold updateGame
  split
  · exact h
  · split
    · exact h
    · split
      · dsimp only
        split
        · exact ⟨h.1, h.2⟩
        · exact h
      · dsimp only
        split
        · exact chaosInv_tickChaos env fc h
        · split
          · exact chaosInv_tickChaos env fc h
          · exact chaosInv_tickChaos env fc h

theorem chaosInv_updateConfig (updates : ConfigPatch) {s : GameState} (h : ChaosInv s.chaos) :
    ChaosInv (updateConfig s updates).chaos :=
  ⟨h.1, h.2⟩

theorem chaosInv_restartGame (s : GameState) : ChaosInv (restartGame s).chaos :=
  ⟨rfl, rfl⟩

theorem reachable_chaosInv {s : GameState} (h : Reachable s) : ChaosInv s.chaos := by
  induction h with
  | init bestScore => exact ⟨rfl, rfl⟩
  | jump _ ih => exact chaosInv_handleJump ih
  | tick env fc _ ih => exact chaosInv_updateGame env fc ih
  | cfg updates _ ih => exact chaosInv_updateConfig updates ih
  | restart _ ih => exact chaosInv_restartGame _

/- field-preservation lemmas for the engine operations -/

theorem updateChaos_enabled (env : Env) (sp : ℚ) (fc : ℕ) (hz : ChaosHazards) (c : ChaosState) :
    (updateChaos env c sp fc hz).enabled = c.enabled := by
  unfold updateChaos
  split <;> rfl

theorem checkGravityFlipTrigger_enabled (bird : Bird) (c : ChaosState) :
    (checkGravityFlipTrigger bird c).enabled = c.enabled := by
  unfold checkGravityFlipTrigger
  split <;> rfl

theorem tickChaos_enabled (env : Env) (fc : ℕ) (s : GameState) :
    (tickChaos env fc s).enabled = s.chaos.enabled := by
  unfold tickChaos
  by_cases h1 : s.config.chaosEnabled = true
  · simp [h1, checkGravityFlipTrigger_enabled, updateChaos_enabled]
  · simp [h1]

theorem updateGame_config (env : Env) (fc : ℕ) (s : GameState) :
    (updateGame env fc s).config = s.config := by
  unfold updateGame
  split
  · rfl
  · split
    · rfl
    · split
      · dsimp only
        split <;> rfl
      · dsimp only
        split
        · rfl
        · split <;> rfl

theorem updateGame_chaos_enabled (env : Env) (fc : ℕ) (s : GameState) :
    (updateGame env fc s).chaos.enabled = s.chaos.enabled := by
  unfold updateGame
  split
  · rfl
  · split
    · rfl
    · split
      · dsimp only
        split <;> rfl
      · dsimp only
        split
        · exact tickChaos_enabled env fc s
        · split <;> exact tickChaos_enabled env fc s

theorem updateGame_hasTriggered_mono (env : Env) (fc : ℕ) (s : GameState)
    (h : s.blackHole.hasTriggeredThisGame = true) :
    (updateGame env fc s).blackHole.hasTriggeredThisGame = true := by
  unfold updateGame
  split
  · exact h
  · split
    · exact h
    · split
      · dsimp only
        split
        · exact h
        · exact h
      · dsimp only
        split
        · rfl
        · split
          · exact h
          · exact h

theorem updateGame_frozen_waiting (env : Env) (fc : ℕ) (s : GameState)
    (h : s.blackHole.waitingToResume = true) : updateGame env fc s = s := by
  unfold updateGame
  rw [if_pos h]
  split <;> rfl

theorem handleJump_resume (s : GameState) (hw : s.blackHole.waitingToResume = true)
    (ha : s.blackHole.active = false) :
    handleJump s =
      { s with
        bird := jumpBird s.bird s.config.jumpHeight s.config.physicsType
        blackHole := { s.blackHole with waitingToResume := false } } := by
  unfold handleJump
  rw [if_neg (by simp [ha]), if_pos hw]

/-- With hazards enabled, the tick's pipe list (before scoring) is the
image of the reveal pass taken with the tick's bird. -/
theorem tickPipes_eq_map (env : Env) (fc : ℕ) (s : GameState)
    (hce : s.config.chaosEnabled = true) :
    ∃ l : List Pipe,
      tickPipes env fc s =
        l.map fun pipe => revealSchrodingerPipe pipe (tickBird env fc s) := by
  unfold tickPipes
  dsimp only
  rw [if_pos hce]
  exact ⟨_, rfl⟩

/-- Closed form of `n` applications of `updateElectricPipe` to a freshly
electrified pipe. -/
theorem updateElectricPipe_iterate (p : Pipe) (n : ℕ) :
    updateElectricPipe^[n] (makeElectricPipe p) =
      { p with
        isElectric := true
        electricActive := decide (n % 170 < 50 ∧ n ≠ 0)
        electricCycleTime := n
        electricOnDuration := 50
        electricOffDuration := 120 } := by
  induction n with
  | zero => rfl
  | succ n ih =>
      rw [Function.iterate_succ_apply', ih]
      unfold updateElectricPipe
      rw [if_neg (by simp)]
      simp only [jsOrNat_zero]
      simp [jsOrNat, Nat.succ_ne_zero]

/- ============ claim theorems ============ -/

/-- C2: `countPassedPipes` marks as passed exactly the not-yet-passed pipes
whose trailing edge is strictly left of the bird's x position, returns the
number of pipes so marked, never unmarks a passed pipe, leaves every other
field unchanged, and the per-tick increment equals the number of pipes
whose `passed` flag transitioned on this call. -/
theorem countPassedPipes_marks_exactly (bird : Bird) (pipes : List Pipe) :
    (countPassedPipes bird pipes).1 = pipes.map (markPassedSpec bird) ∧
    (countPassedPipes bird pipes).2 =
      (pipes.filter fun p => decide (p.passed = false ∧ p.x + p.width < bird.x)).length ∧
    (∀ p : Pipe, (markPassedSpec bird p).passed = (p.passed || decide (p.x + p.width < bird.x))) ∧
    (∀ p : Pipe, p.passed = true → markPassedSpec bird p = p) ∧
    (∀ p : Pipe, { markPassedSpec bird p with passed := p.passed } = p) ∧
    (countPassedPipes bird pipes).2 =
      (pipes.filter fun p => !p.passed && (markPassedSpec bird p).passed).length := by
  refine ⟨countPassedPipes_fst bird pipes, countPassedPipes_snd bird pipes, ?_, ?_,
    markPassedSpec_keeps bird, ?_⟩
  · intro p
    unfold markPassedSpec
    by_cases hc : p.passed = false ∧ p.x + p.width < bird.x
    · rw [if_pos hc]
      simp [hc.1, hc.2]
    · rw [if_neg hc]
      cases hp : p.passed
      · have hlt : ¬ p.x + p.width < bird.x := fun hlt => hc ⟨hp, hlt⟩
        simp [hlt]
      · simp
  · intro p hp
    unfold markPassedSpec
    rw [if_neg]
    rintro ⟨h1, -⟩
    rw [hp] at h1
    cases h1
  · rw [countPassedPipes_snd bird pipes]
    congr 1
    apply List.filter_congr
    intro p _
    cases hp : p.passed
    · unfold markPassedSpec
      by_cases hc : p.x + p.width < bird.x
      · simp [hp, hc]
      · simp [hp, hc]
    · simp [hp, markPassedSpec]

/-- C2 witness: the theorem applied to a concrete bird and pipe list; the
already-passed pipe is untouched and the single unpassed pipe behind the
bird is counted. -/
theorem countPassedPipes_marks_exactly_witness :
    markPassedSpec createBird wPipeB = wPipeB ∧
    (countPassedPipes createBird [wPipeA, wPipeB]).2 = 1 := by
  refine ⟨(countPassedPipes_marks_exactly createBird [wPipeA, wPipeB]).2.2.2.1 wPipeB rfl, ?_⟩
  rw [(countPassedPipes_marks_exactly createBird [wPipeA, wPipeB]).2.1]
  norm_num [wPipeA, wPipeB, createBird, birdStartX, List.filter_cons]

/-- C7: an obstacle electrified by `makeElectricPipe` (onDuration 50,
offDuration 120) starts inactive, and after `n ≥ 1` applications of
`updateElectricPipe` it is active exactly when `n % 170 < 50`. -/
theorem electricPipe_dutyCycle (p : Pipe) (n : ℕ) (hn : 1 ≤ n) :
    (makeElectricPipe p).electricActive = false ∧
    (updateElectricPipe^[n] (makeElectricPipe p)).electricActive = decide (n % 170 < 50) ∧
    (updateElectricPipe^[n] (makeElectricPipe p)).electricCycleTime = n := by
  refine ⟨rfl, ?_, ?_⟩
  · rw [updateElectricPipe_iterate]
    simp [Nat.one_le_iff_ne_zero.mp hn]
  · rw [updateElectricPipe_iterate]

/-- C7 witness: the duty cycle evaluated at ticks 49, 50, 170 and 175 of a
concrete electrified pipe. -/
theorem electricPipe_dutyCycle_witness :
    (updateElectricPipe^[49] (makeElectricPipe wPipeA)).electricActive = true ∧
    (updateElectricPipe^[50] (makeElectricPipe wPipeA)).electricActive = false ∧
    (updateElectricPipe^[170] (makeElectricPipe wPipeA)).electricActive = true ∧
    (updateElectricPipe^[175] (makeElectricPipe wPipeA)).electricActive = true := by
  refine ⟨?_, ?_, ?_, ?_⟩
  · rw [(electricPipe_dutyCycle wPipeA 49 (by norm_num)).2.1]
    decide
  · rw [(electricPipe_dutyCycle wPipeA 50 (by norm_num)).2.1]
    decide
  · rw [(electricPipe_dutyCycle wPipeA 170 (by norm_num)).2.1]
    decide
  · rw [(electricPipe_dutyCycle wPipeA 175 (by norm_num)).2.1]
    decide

/-- C8 counterexample: the claim asserts that an obstacle entering
`updatePipes` at `x = -100` with width 60 is retained for every speed; at
the configured maximum speed 10 it is removed (its post-shift trailing
edge is exactly -50, which fails the strict `> -50` retention test). -/
theorem updatePipes_entering_cex :
    (boundaryPipe (-100)).width = 60 ∧ updatePipes [boundaryPipe (-100)] 10 = [] := by
  refine ⟨rfl, ?_⟩
  unfold updatePipes boundaryPipe
  norm_num [List.filter_cons]

/-- C8 (amended): `updatePipes` shifts every obstacle left by `speed` and
retains exactly those whose post-shift trailing edge `x + width` is
strictly greater than -50; the boundary instances hold for the speeds that
keep them on the stated side: `x=-110` entering is removed for every
`speed ≥ 0`, and `x=-100` entering is retained for every `speed < 10`. -/
theorem updatePipes_shift_cull (pipes : List Pipe) (speed : ℚ) :
    (∀ p ∈ pipes, p.x - speed + p.width > -50 →
        { p with x := p.x - speed } ∈ updatePipes pipes speed) ∧
    (∀ q ∈ updatePipes pipes speed,
        q.x + q.width > -50 ∧ { q with x := q.x + speed } ∈ pipes) ∧
    (0 ≤ speed → updatePipes [boundaryPipe (-110)] speed = []) ∧
    (speed < 10 → updatePipes [boundaryPipe (-100)] speed =
        [{ boundaryPipe (-100) with x := -100 - speed }]) := by
  refine ⟨?_, ?_, ?_, ?_⟩
  · intro p hp h
    unfold updatePipes
    rw [List.mem_filter]
    exact ⟨List.mem_map_of_mem _ hp, by simpa using h⟩
  · intro q hq
    unfold updatePipes at hq
    rw [List.mem_filter] at hq
    obtain ⟨hm, hcond⟩ := hq
    refine ⟨by simpa using hcond, ?_⟩
    rw [List.mem_map] at hm
    obtain ⟨p, hp, rfl⟩ := hm
    have : ({ p with x := p.x - speed } : Pipe).x + speed = p.x := by
      dsimp only
      ring
    rw [show ({ ({ p with x := p.x - speed } : Pipe) with
        x := ({ p with x := p.x - speed } : Pipe).x + speed } : Pipe) = p from by
      cases p
      dsimp only
      rw [sub_add_cancel]]
    exact hp
  · intro h
    have hlt : ¬ ((-110 : ℚ) - speed + 60 > -50) := by linarith
    unfold updatePipes boundaryPipe
    simp [hlt]
  · intro h
    have hgt : ((-100 : ℚ) - speed + 60 > -50) := by linarith
    unfold updatePipes boundaryPipe
    simp [hgt]

/-- C8 witness: the amended boundary instances at the default speed 4. -/
theorem updatePipes_shift_cull_witness :
    updatePipes [boundaryPipe (-110)] 4 = [] ∧
    updatePipes [boundaryPipe (-100)] 4 = [{ boundaryPipe (-100) with x := -100 - 4 }] :=
  ⟨(updatePipes_shift_cull [boundaryPipe (-110)] 4).2.2.1 (by norm_num),
    (updatePipes_shift_cull [boundaryPipe (-100)] 4).2.2.2 (by norm_num)⟩

/-- C10: while the black-hole animation is active, `handleJump` returns
the state completely unchanged, whatever the status. -/
theorem handleJump_ignored_during_blackHole (s : GameState)
    (h : s.blackHole.active = true) : handleJump s = s := by
  unfold handleJump
  rw [if_pos h]

/-- C10 witness: the theorem applied to a concrete state with an active
black hole. -/
theorem handleJump_ignored_during_blackHole_witness :
    handleJump wStateActiveBH = wStateActiveBH :=
  handleJump_ignored_during_blackHole wStateActiveBH rfl

/-- C6 counterexample: the claim asserts the hazard aggregate's `enabled`
flag and the configuration's `chaosEnabled` flag never diverge across
every engine operation; `restartGame` after enabling hazards through
`updateConfig` produces a state whose configuration flag is `true` while
the hazard aggregate flag is `false`. -/
theorem chaosEnabled_sync_cex :
    divergedState.config.chaosEnabled = true ∧ divergedState.chaos.enabled = false :=
  ⟨rfl, rfl⟩

/-- C6 (amended): `updateConfig` always resynchronizes the hazard
aggregate's `enabled` flag with the merged `chaosEnabled`; `startGame`
synchronizes it, and `handleJump` and `updateGame` preserve the
synchronization; `restartGame` however resets the hazard flag to `false`
while keeping the configuration, so after `restartGame` the two flags
diverge (in status `ready`, where ticks are no-ops) whenever
`chaosEnabled` is on, until the next `startGame`. -/
theorem chaosEnabled_sync (s : GameState) :
    (∀ updates : ConfigPatch,
        (updateConfig s updates).chaos.enabled = (updateConfig s updates).config.chaosEnabled) ∧
    ((startGame s).chaos.enabled = (startGame s).config.chaosEnabled) ∧
    (s.chaos.enabled = s.config.chaosEnabled →
        (handleJump s).chaos.enabled = (handleJump s).config.chaosEnabled) ∧
    (∀ (env : Env) (fc : ℕ), s.chaos.enabled = s.config.chaosEnabled →
        (updateGame env fc s).chaos.enabled = (updateGame env fc s).config.chaosEnabled) ∧
    ((restartGame s).config = s.config ∧ (restartGame s).chaos.enabled = false ∧
        (restartGame s).status = .ready) := by
  refine ⟨fun updates => rfl, rfl, ?_, ?_, rfl, rfl, rfl⟩
  · intro h
    unfold handleJump
    split
    · exact h
    · split
      · exact h
      · split
        · rfl
        · split
          · exact h
          · split
            · rfl
            · exact h
  · intro env fc h
    rw [updateGame_chaos_enabled, updateGame_config]
    exact h

/-- C6 witness: the synchronization-preservation parts of the amended
claim applied to the initial state (where both flags are `false`). -/
theorem chaosEnabled_sync_witness :
    (handleJump (createInitialState 0)).chaos.enabled =
      (handleJump (createInitialState 0)).config.chaosEnabled ∧
    (updateGame envW 1 (createInitialState 0)).chaos.enabled =
      (updateGame envW 1 (createInitialState 0)).config.chaosEnabled :=
  ⟨(chaosEnabled_sync (createInitialState 0)).2.2.1 rfl,
    (chaosEnabled_sync (createInitialState 0)).2.2.2.1 envW 1 rfl⟩

/-- C9: in every reachable state the gravity-flip list is empty (no code
path ever spawns a gravity-flip zone), so the gravity multiplier is
always `+1` and the effective gravity of every tick equals the configured
gravity. -/
theorem gravityFlips_never_spawned {s : GameState} (h : Reachable s) :
    s.chaos.gravityFlips = [] ∧ s.chaos.gravityMultiplier = 1 ∧
    ∀ (env : Env) (fc : ℕ), effectiveGravity env fc s = s.config.gravity := by
  obtain ⟨h1, h2⟩ := reachable_chaosInv h
  refine ⟨h1, h2, fun env fc => ?_⟩
  unfold effectiveGravity
  rw [(chaosInv_tickChaos env fc ⟨h1, h2⟩).2, mul_one]

/-- C9 witness: the theorem applied to the reachable initial state. -/
theorem gravityFlips_never_spawned_witness :
    (createInitialState 5).chaos.gravityFlips = [] ∧
    effectiveGravity envW 0 (createInitialState 5) = (createInitialState 5).config.gravity :=
  ⟨(gravityFlips_never_spawned (Reachable.init 5)).1,
    (gravityFlips_never_spawned (Reachable.init 5)).2.2 envW 0⟩

/-- C3: in every state produced by a tick of `updateGame` from a reachable
state, the gravity multiplier is `-1` iff exactly one gravity-flip zone is
active, it is `+1` whenever no zone is active, no two zones are ever
active simultaneously, and the effective gravity of a tick equals the
configured gravity times the tick's gravity multiplier. -/
theorem gravityMultiplier_iff_activeZone (env : Env) (fc : ℕ) {s : GameState}
    (h : Reachable s) :
    ((updateGame env fc s).chaos.gravityMultiplier = -1 ↔
        ((updateGame env fc s).chaos.gravityFlips.filter fun f => f.isActive).length = 1) ∧
    (((updateGame env fc s).chaos.gravityFlips.filter fun f => f.isActive).length = 0 →
        (updateGame env fc s).chaos.gravityMultiplier = 1) ∧
    ((updateGame env fc s).chaos.gravityFlips.filter fun f => f.isActive).length ≤ 1 ∧
    (∀ (env2 : Env) (fc2 : ℕ),
        effectiveGravity env2 fc2 (updateGame env fc s) =
          (updateGame env fc s).config.gravity *
            (tickChaos env2 fc2 (updateGame env fc s)).gravityMultiplier) := by
  obtain ⟨h1, h2⟩ := reachable_chaosInv (Reachable.tick env fc h)
  refine ⟨?_, fun _ => h2, ?_, fun env2 fc2 => rfl⟩
  · rw [h1, h2]
    simp only [List.filter_nil, List.length_nil]
    norm_num
  · rw [h1]
    simp

/-- C3 witness: the theorem applied to a tick of the reachable initial
state (zero active zones, multiplier `+1`). -/
theorem gravityMultiplier_iff_activeZone_witness :
    ((updateGame envW 0 (createInitialState 0)).chaos.gravityFlips.filter
        fun f => f.isActive).length = 0 ∧
    (updateGame envW 0 (createInitialState 0)).chaos.gravityMultiplier = 1 := by
  have hlen :
      ((updateGame envW 0 (createInitialState 0)).chaos.gravityFlips.filter
        fun f => f.isActive).length = 0 := by
    simp [updateGame, createInitialState, createInitialBlackHole, createInitialChaos,
      defaultConfig]
  exact ⟨hlen, (gravityMultiplier_iff_activeZone envW 0 (Reachable.init 0)).2.1 hlen⟩

/-- C1: on a playing tick with no suspension, if the score after the
scoring step exceeds a positive previous best and the special event has
not yet fired this game, `updateGame` enters the black-hole sub-machine
(`active`, `pulling`, `progress` 0, `hasTriggeredThisGame`) and skips
every collision check — the status stays `playing`; `hasTriggeredThisGame`
is never cleared by a tick, so the event fires at most once per game. -/
theorem blackHole_trigger (env : Env) (fc : ℕ) (s : GameState)
    (hplay : s.status = .playing)
    (hact : s.blackHole.active = false)
    (hwait : s.blackHole.waitingToResume = false)
    (htrig : s.blackHole.hasTriggeredThisGame = false)
    (hbest : 0 < s.bestScore)
    (hbeat : s.bestScore < s.score + (tickScore env fc s).2) :
    (updateGame env fc s).blackHole =
      { active := true, progress := 0, phase := .pulling, hasTriggeredThisGame := true,
        waitingToResume := false } ∧
    (updateGame env fc s).status = .playing ∧
    (updateGame env fc s).score = s.score + (tickScore env fc s).2 ∧
    (∀ (env2 : Env) (fc2 : ℕ) (s2 : GameState), s2.blackHole.hasTriggeredThisGame = true →
        (updateGame env2 fc2 s2).blackHole.hasTriggeredThisGame = true) := by
  have key : updateGame env fc s =
      { s with
        bird := tickBird env fc s
        pipes := (tickScore env fc s).1
        score := s.score + (tickScore env fc s).2
        bestScore := max (s.score + (tickScore env fc s).2) s.bestScore
        chaos := tickChaos env fc s
        blackHole :=
          { active := true, progress := 0, phase := .pulling, hasTriggeredThisGame := true,
            waitingToResume := false } } := by
    unfold updateGame
    rw [if_neg (by simp [hplay]), if_neg (by simp [hwait]), if_neg (by simp [hact])]
    dsimp only
    rw [if_pos ⟨hbeat, hbest, htrig⟩]
  rw [key]
  exact ⟨rfl, hplay, rfl, updateGame_hasTriggered_mono⟩

/-- C1 witness: the trigger fires on a concrete playing state with
score 1, best 1, and one pipe passed on the tick. -/
theorem blackHole_trigger_witness :
    (updateGame envW 1 wStateTrigger).blackHole =
      { active := true, progress := 0, phase := .pulling, hasTriggeredThisGame := true,
        waitingToResume := false } ∧
    (updateGame envW 1 wStateTrigger).status = .playing := by
  have hbeat : wStateTrigger.bestScore < wStateTrigger.score + (tickScore envW 1 wStateTrigger).2 := by
    norm_num [tickScore, tickPipes, tickBird, tickChaos, effectiveGravity, updateBird,
      applyGravity, updatePosition, updatePipes, shouldSpawnPipe, createPipe,
      updateElectricPipe, revealSchrodingerPipe, applySchrodingerEffect, countPassedPipes,
      wStateTrigger, wPipeA, createInitialState, defaultConfig, createBird,
      createInitialChaos, createInitialBlackHole, envW, canvasWidth, canvasHeight,
      birdStartX, birdStartY, birdWidthConst, birdHeightConst, pipeWidthConst,
      minPipeHeight, groundHeight, List.filter_cons]
  have h := blackHole_trigger envW 1 wStateTrigger rfl rfl rfl rfl (by norm_num [wStateTrigger, createInitialState]) hbeat
  exact ⟨h.1, h.2.1⟩

/-- C4: when the black-hole animation completes (progress + 1/150 reaches
1 on a playing, non-waiting tick), `updateGame` clears the obstacle list
and the hazard entity lists, recentres the actor at rest, and enters the
`waitingToResume` state with the sub-machine reset; while
`waitingToResume` holds, `updateGame` is the identity, and `handleJump`
(with the animation no longer active) clears `waitingToResume` and
applies an impulse.  The gravity-flip list is empty by hypothesis, as it
is in every reachable state. -/
theorem blackHole_completion (env : Env) (fc : ℕ) (s : GameState)
    (hplay : s.status = .playing)
    (hwait : s.blackHole.waitingToResume = false)
    (hact : s.blackHole.active = true)
    (hdone : 1 ≤ s.blackHole.progress + 1 / blackHoleDuration)
    (hflips : s.chaos.gravityFlips = []) :
    updateGame env fc s =
      { s with
        pipes := []
        bird := { s.bird with velocity := 0, y := canvasHeight / 2, x := 80 }
        blackHole :=
          { s.blackHole with
            active := false, progress := 0, phase := .none, waitingToResume := true }
        chaos :=
          { s.chaos with
            electricPillars := [], gammaRays := [], vortexes := [], particles := [] } } ∧
    (updateGame env fc s).pipes = [] ∧
    (updateGame env fc s).chaos.electricPillars = [] ∧
    (updateGame env fc s).chaos.gammaRays = [] ∧
    (updateGame env fc s).chaos.vortexes = [] ∧
    (updateGame env fc s).chaos.particles = [] ∧
    (updateGame env fc s).chaos.gravityFlips = [] ∧
    (∀ (env2 : Env) (fc2 : ℕ) (s2 : GameState), s2.blackHole.waitingToResume = true →
        updateGame env2 fc2 s2 = s2) ∧
    (∀ s2 : GameState, s2.blackHole.waitingToResume = true → s2.blackHole.active = false →
        handleJump s2 =
          { s2 with
            bird := jumpBird s2.bird s2.config.jumpHeight s2.config.physicsType
            blackHole := { s2.blackHole with waitingToResume := false } }) := by
  have key : updateGame env fc s =
      { s with
        pipes := []
        bird := { s.bird with velocity := 0, y := canvasHeight / 2, x := 80 }
        blackHole :=
          { s.blackHole with
            active := false, progress := 0, phase := .none, waitingToResume := true }
        chaos :=
          { s.chaos with
            electricPillars := [], gammaRays := [], vortexes := [], particles := [] } } := by
    unfold updateGame
    rw [if_neg (by simp [hplay]), if_neg (by simp [hwait]), if_pos hact]
    dsimp only
    rw [if_pos hdone]
  rw [key]
  exact ⟨rfl, rfl, rfl, rfl, rfl, rfl, hflips, updateGame_frozen_waiting, handleJump_resume⟩

/-- C4 witness: a concrete playing state whose animation completes on the
tick; it ends with no pipes, empty hazard lists and `waitingToResume`. -/
theorem blackHole_completion_witness :
    (updateGame envW 1 wStateBH).pipes = [] ∧
    (updateGame envW 1 wStateBH).chaos.gammaRays = [] ∧
    (updateGame envW 1 wStateBH).blackHole.waitingToResume = true := by
  have h := blackHole_completion envW 1 wStateBH rfl rfl rfl
    (by norm_num [wStateBH, blackHoleDuration]) rfl
  refine ⟨h.2.1, h.2.2.2.1, ?_⟩
  rw [h.1]

/-- C5 counterexample: the claim asserts an unrevealed ghost obstacle
never causes a fatal pipe collision; with hazards disabled mid-game the
reveal pass is skipped, and a concrete unrevealed ghost pipe overlapping
the bird kills it (deleting the pipe leaves the same tick alive). -/
theorem ghostPipe_collision_cex :
    cexGhostPipe.isGhost = some true ∧ cexGhostPipe.isRevealed = false ∧
    (updateGame envW 1 cexGhostState).status = .over ∧
    (updateGame envW 1 cexGhostStateEmpty).status = .playing := by
  refine ⟨rfl, rfl, ?_, ?_⟩ <;>
    norm_num [updateGame, tickScore, tickPipes, tickBird, tickChaos, effectiveGravity,
      updateBird, applyGravity, updatePosition, updatePipes, shouldSpawnPipe, createPipe,
      updateElectricPipe, revealSchrodingerPipe, applySchrodingerEffect, countPassedPipes,
      ghostFilter, checkAnyCollision, checkPipeCollision, isBirdOutOfBounds,
      checkChaosCollision, checkElectricPipeCollision, cexGhostState, cexGhostStateEmpty,
      cexGhostPipe, createInitialState, defaultConfig, createBird, createInitialChaos,
      createInitialBlackHole, envW, canvasWidth, canvasHeight, birdStartX, birdStartY,
      birdWidthConst, birdHeightConst, pipeWidthConst, minPipeHeight, groundHeight,
      List.filter_cons]

/-- C5 (amended): a ghost obstacle is revealed exactly when the actor's
leading edge comes within 50 units of its x position; a revealed ghost is
excluded from pipe-collision testing entirely (any fatal pipe collision is
caused by an obstacle that is not a revealed ghost); and on any tick with
hazards enabled — so that the reveal pass runs — an unrevealed ghost in
the tick's pipe list cannot collide with the actor (it behaves as if it
did not exist).  If hazards are disabled, an unrevealed ghost participates
in collision like a normal obstacle. -/
theorem schrodinger_ghost_rules :
    (∀ (p : Pipe) (b : Bird), p.isGhost ≠ Option.none → p.isRevealed = false →
        ((revealSchrodingerPipe p b).isRevealed = true ↔ b.x + b.width > p.x - 50)) ∧
    (∀ (b : Bird) (pipes : List Pipe), checkAnyCollision b (pipes.filter ghostFilter) = true →
        ∃ p ∈ pipes, checkPipeCollision b p = true ∧
          ¬(p.isGhost = some true ∧ p.isRevealed = true)) ∧
    (∀ (env : Env) (fc : ℕ) (s : GameState), s.config.chaosEnabled = true →
        ∀ p ∈ (tickScore env fc s).1, p.isGhost = some true → p.isRevealed = false →
          checkPipeCollision (tickBird env fc s) p = false) := by
  refine ⟨?_, ?_, ?_⟩
  · intro p b hg hr
    have hcond : ¬(p.isGhost = Option.none ∨ p.isRevealed = true) := by
      rintro (h1 | h1)
      · exact hg h1
      · rw [hr] at h1
        cases h1
    constructor
    · intro hrev
      by_cases h2 : b.x + b.width > p.x - 50
      · exact h2
      · unfold revealSchrodingerPipe at hrev
        rw [if_neg hcond, if_neg h2] at hrev
        rw [hr] at hrev
        cases hrev
    · intro h2
      unfold revealSchrodingerPipe
      rw [if_neg hcond, if_pos h2]
  · intro b pipes hcol
    unfold checkAnyCollision at hcol
    rw [List.any_eq_true] at hcol
    obtain ⟨p, hp, hc⟩ := hcol
    rw [List.mem_filter] at hp
    refine ⟨p, hp.1, hc, ?_⟩
    rintro ⟨hg, hr⟩
    have hf := hp.2
    unfold ghostFilter at hf
    rw [hg, hr] at hf
    simp at hf
  · intro env fc s hce p hp hghost hunrev
    rw [show (tickScore env fc s).1 =
        (tickPipes env fc s).map (markPassedSpec (tickBird env fc s)) from
      countPassedPipes_fst _ _] at hp
    rw [List.mem_map] at hp
    obtain ⟨q, hq, rfl⟩ := hp
    have hgq : q.isGhost = some true := by
      rw [← markPassedSpec_isGhost (tickBird env fc s) q]
      exact hghost
    have hrq : q.isRevealed = false := by
      rw [← markPassedSpec_isRevealed (tickBird env fc s) q]
      exact hunrev
    obtain ⟨l, hl⟩ := tickPipes_eq_map env fc s hce
    rw [hl] at hq
    rw [List.mem_map] at hq
    obtain ⟨r, hr, rfl⟩ := hq
    have hrg : r.isGhost ≠ Option.none := by
      rw [← revealSchrodingerPipe_isGhost r (tickBird env fc s), hgq]
      exact fun hcon => Option.noConfusion hcon
    obtain ⟨heq, hfar⟩ := revealSchrodingerPipe_unrevealed_far r (tickBird env fc s) hrg hrq
    apply checkPipeCollision_far
    rw [markPassedSpec_x, heq]
    push_neg at hfar
    exact hfar

/-- C5 witness: with hazards enabled, a distant unrevealed ghost pipe in
the tick's scored list does not collide with the bird. -/
theorem schrodinger_ghost_rules_witness :
    checkPipeCollision (tickBird envW 1 wGhostState) wGhostPipeOut = false := by
  have hmem : wGhostPipeOut ∈ (tickScore envW 1 wGhostState).1 := by
    norm_num [tickScore, tickPipes, tickBird, tickChaos, effectiveGravity, updateBird,
      applyGravity, updatePosition, updatePipes, shouldSpawnPipe, createPipe,
      updateElectricPipe, revealSchrodingerPipe, applySchrodingerEffect,
      applyVortexForce, checkGravityFlipTrigger, updateChaos, countPassedPipes,
      wGhostState, wGhostPipe, wGhostPipeOut, createInitialState, defaultConfig,
      createBird, createInitialChaos, createInitialBlackHole, envW, canvasWidth,
      canvasHeight, birdStartX, birdStartY, birdWidthConst, birdHeightConst,
      pipeWidthConst, minPipeHeight, groundHeight, spawnInterval, spawnChance,
      List.filter_cons]
  exact schrodinger_ghost_rules.2.2 envW 1 wGhostState rfl wGhostPipeOut hmem rfl rfl

end Flappy
